import Mathlib

/-!
Verification of the trading-monitor order/position lifecycle.

This file gives a shallow embedding of the three batch jobs of the
repository — the Decision Executor (`src/order_executor.py` /
`src/trading/order_executor.py`), the Order Monitor
(`src/trading/order_monitor.py`) and the Position Monitor
(`src/trading/position_monitor.py`) — over an explicit relational-store
state, and proves the claimed lifecycle properties about them.

Statuses, order types and exit reasons are kept as the exact strings the
Python code compares; prices and quantities are rationals (the code uses
Python floats; every claimed identity is about the algebraic formula the
code computes). Broker calls are modelled by an explicit `Broker` record
of response functions; a `none` / `false` response stands for the call
raising, and each handler returns the store as mutated up to the point
where the exception (if any) was raised, together with a success flag,
mirroring the try/except structure of the source.
-/

set_option autoImplicit false

/-- Row of `trade_journal`. Fields not read or written by the three jobs
(timestamps, analysis back-references) are omitted. -/
structure Trade where
  id : Nat
  trade_id : String
  symbol : String
  trade_style : String
  pattern : String
  status : String
  planned_entry : Option Rat
  planned_stop_loss : Option Rat
  planned_take_profit : Option Rat
  planned_qty : Option Rat
  actual_entry : Option Rat
  actual_qty : Option Rat
  exit_price : Option Rat
  actual_pnl : Option Rat
  exit_reason : Option String
deriving DecidableEq, Repr

/-- Row of `order_execution`. `filled_at` is an abstract timestamp. -/
structure OrderRec where
  id : Nat
  trade_journal_id : Nat
  alpaca_order_id : String
  order_type : String
  side : String
  order_status : String
  time_in_force : String
  qty : Rat
  limit_price : Option Rat
  stop_price : Option Rat
  filled_qty : Option Rat
  filled_avg_price : Option Rat
  filled_at : Option Nat
deriving DecidableEq, Repr

/-- Row of `position_tracking`. -/
structure Position where
  id : Nat
  trade_journal_id : Nat
  symbol : String
  qty : Rat
  avg_entry_price : Rat
  current_price : Rat
  market_value : Rat
  cost_basis : Rat
  unrealized_pnl : Rat
  stop_loss_order_id : Option String
  take_profit_order_id : Option String
deriving DecidableEq, Repr

/-- Row of `analysis_decision`, with the nested `Decision` JSON payload
flattened into its extracted fields: `primary_action` is
the `primary_action` key of the `Decision` JSON; `side`/`qty`/`limit_price`/`strategy`/
`pattern`/`time_in_force` come from `Decision.new_trade`; `stop_price` is
`new_trade.stop_loss.stop_price` and `take_profit_price` is
`new_trade.take_profit.limit_price` (the code tolerates bare numbers for
the nested objects; either way a single optional rational results).
`none` stands for an absent key. -/
structure Decision where
  analysis_id : String
  ticker : String
  approve : Bool
  executed : Bool
  execution_time : Option Nat
  primary_action : String
  side : Option String
  qty : Option Rat
  limit_price : Option Rat
  stop_price : Option Rat
  take_profit_price : Option Rat
  strategy : Option String
  pattern : Option String
  time_in_force : Option String
  existing_order_id : Option String
  existing_trade_journal_id : Option Nat
deriving DecidableEq, Repr

/-- The relational store shared by the three jobs. Row order stands for
the `created_at` / `Date_time` ordering the SQL queries sort by (inserts
append, so list order and creation order agree). -/
structure DB where
  decisions : List Decision
  trades : List Trade
  orders : List OrderRec
  positions : List Position
deriving DecidableEq, Repr

/-- Broker order state as returned by `get_order_by_id`. -/
structure AlpacaOrder where
  id : String
  client_order_id : String
  symbol : String
  status : String
  filled_qty : Option Rat
  filled_avg_price : Option Rat
  filled_at : Option Nat
deriving DecidableEq, Repr

/-- Broker acknowledgement of `submit_order` (the only fields read). -/
structure SubmittedOrder where
  id : String
  client_order_id : String
deriving DecidableEq, Repr

/-- The Broker Gateway as a record of response functions. `none` (or
`false` for cancels) models the call raising an exception. -/
structure Broker where
  getOrder : String → Option AlpacaOrder
  submitStop : String → Rat → Rat → Option SubmittedOrder
  submitLimit : String → Rat → Rat → Option SubmittedOrder
  cancelOk : String → Bool

/-- Observable external effects of a handler, in program order: broker
calls, plus writes of the `executed` flag of a decision (instrumented so
that at-most-once execution can be stated as a trace property). -/
inductive Event where
  | submitOrder (symbol : String) (qty price : Rat)
  | cancelOrder (orderId : String)
  | setExecuted (analysisId : String) (value : Bool)
deriving DecidableEq, Repr

/-- Result of one handler: the store as mutated so far, the effects
emitted so far, and whether the handler returned normally (`false` means
it raised and was caught by the caller). -/
structure StepResult where
  db : DB
  events : List Event
  ok : Bool
deriving DecidableEq, Repr

/-- Python truthiness of an optional numeric column or JSON field:
`None` and `0` are falsy. -/
def truthyRat : Option Rat → Bool
  | none => false
  | some x => decide (x ≠ 0)

/-- Python truthiness of an optional string field: `None` and the empty
string are falsy. -/
def truthyStr : Option String → Bool
  | none => false
  | some s => decide (s ≠ "")

/-- Python truthiness of an optional integer id: `None` and `0` are
falsy. -/
def truthyNat : Option Nat → Bool
  | none => false
  | some n => decide (n ≠ 0)

/-- Python `int()` truncation toward zero of a rational. -/
def ratTrunc (q : Rat) : Int :=
  if q < 0 then Rat.ceil q else Rat.floor q

/-- SELECT ... WHERE id = tid, first row: `trade_journal` point lookup. -/
def findTrade (db : DB) (tid : Nat) : Option Trade :=
  db.trades.find? (fun t => t.id = tid)

/-- UPDATE trade_journal SET ... WHERE id = tid. -/
def updateTradeRow (db : DB) (tid : Nat) (f : Trade → Trade) : DB :=
  { db with trades := db.trades.map (fun t => if t.id = tid then f t else t) }

/-- UPDATE order_execution SET ... WHERE id = oid. -/
def updateOrderRow (db : DB) (oid : Nat) (f : OrderRec → OrderRec) : DB :=
  { db with orders := db.orders.map (fun o => if o.id = oid then f o else o) }

/-- UPDATE order_execution SET order_status = "cancelled" WHERE
alpaca_order_id = aid. -/
def markCancelledByAlpacaId (db : DB) (aid : String) : DB :=
  { db with orders := db.orders.map (fun o =>
      if o.alpaca_order_id = aid then { o with order_status := "cancelled" } else o) }

/-- UPDATE analysis_decision SET ... WHERE Analysis_Id = aid. -/
def updateDecisionRow (db : DB) (aid : String) (f : Decision → Decision) : DB :=
  { db with decisions := db.decisions.map (fun d =>
      if d.analysis_id = aid then f d else d) }

/-- Fresh serial id: one more than the largest id in use. -/
def freshId (ids : List Nat) : Nat :=
  ids.foldr max 0 + 1

/-- INSERT INTO position_tracking (id assigned by the store). -/
def insertPosition (db : DB) (p : Nat → Position) : DB :=
  { db with positions := db.positions ++ [p (freshId (db.positions.map Position.id))] }

/-- INSERT INTO order_execution (id assigned by the store). -/
def insertOrder (db : DB) (o : Nat → OrderRec) : DB :=
  { db with orders := db.orders ++ [o (freshId (db.orders.map OrderRec.id))] }

/-- INSERT INTO trade_journal ... RETURNING id. -/
def insertTrade (db : DB) (t : Nat → Trade) : DB × Nat :=
  let tid := freshId (db.trades.map Trade.id)
  ({ db with trades := db.trades ++ [t tid] }, tid)

/-! ## Order Monitor (`src/trading/order_monitor.py`) -/

/-- Status vocabulary of the monitor work-list query (`OrderMonitor.run`,
lines 53–57): orders whose local status is in this list are re-synced
each run. -/
def monitorStatuses : List String :=
  ["pending", "partially_filled", "new", "accepted", "expired", "cancelled", "rejected"]

/-- Work list of one monitor run: `SELECT * FROM order_execution WHERE
order_status IN (...) ORDER BY created_at ASC` (row order stands for
`created_at` order). -/
def monitorWorkList (db : DB) : List OrderRec :=
  db.orders.filter (fun o => decide (o.order_status ∈ monitorStatuses))

/-- Alpaca→local status map of `sync_order_status` (lines 90–100),
including the `.get(status, status)` pass-through default. -/
def statusMap (s : String) : String :=
  if s = "new" then "pending"
  else if s = "accepted" then "pending"
  else if s = "pending_new" then "pending"
  else if s = "filled" then "filled"
  else if s = "partially_filled" then "partially_filled"
  else if s = "canceled" then "cancelled"
  else if s = "rejected" then "cancelled"
  else if s = "expired" then "cancelled"
  else s

/-- Persisted `filled_qty`: `int(alpaca_order.filled_qty) if
alpaca_order.filled_qty else None` (truthiness: `None` and `0` map to
NULL). -/
def persistFilledQty : Option Rat → Option Rat
  | none => none
  | some q => if q = 0 then none else some ((ratTrunc q : Int) : Rat)

/-- Persisted `filled_avg_price`: `float(...) if ... else None`. -/
def persistFilledPrice : Option Rat → Option Rat
  | none => none
  | some p => if p = 0 then none else some p

/-- Sibling protective orders still open for a trade, excluding the one
that just filled: the query of `cancel_remaining_orders` (lines
448–454). -/
def openSiblingOrders (db : DB) (tjid : Nat) (filledId : String) : List OrderRec :=
  db.orders.filter (fun o => decide (o.trade_journal_id = tjid ∧
    (o.order_type = "STOP_LOSS" ∨ o.order_type = "TAKE_PROFIT") ∧
    (o.order_status = "pending" ∨ o.order_status = "new" ∨ o.order_status = "accepted") ∧
    o.alpaca_order_id ≠ filledId))

/-- Loop body of `cancel_remaining_orders` (lines 456–471): attempt the
broker cancel; on success mark the row cancelled locally; on failure log
and continue. -/
def cancelStep (broker : Broker) (acc : DB × List Event) (o : OrderRec) : DB × List Event :=
  (if broker.cancelOk o.alpaca_order_id
     then markCancelledByAlpacaId acc.1 o.alpaca_order_id
     else acc.1,
   acc.2 ++ [Event.cancelOrder o.alpaca_order_id])

/-- Embedding of `OrderMonitor.cancel_remaining_orders` (lines 438–474): cancel each
still-open sibling at the broker and, when the cancel succeeds, mark it
cancelled locally; a failed cancel is logged and the loop continues. -/
def cancel_remaining_orders (broker : Broker) (db : DB) (tjid : Nat)
    (filledId : String) : DB × List Event :=
  (openSiblingOrders db tjid filledId).foldl (cancelStep broker) (db, [])

/-- Embedding of `OrderMonitor.handle_exit_filled` (lines 378–436): close the parent
trade off a filled STOP_LOSS / TAKE_PROFIT order. A missing trade row or
NULL price/entry/quantity raises before any mutation. -/
def handle_exit_filled (broker : Broker) (db : DB) (order : OrderRec)
    (ao : AlpacaOrder) : StepResult :=
  match findTrade db order.trade_journal_id with
  | none => ⟨db, [], false⟩
  | some trade =>
    match ao.filled_avg_price, trade.actual_entry, ao.filled_qty with
    | some exitPrice, some entryPrice, some qtyActual =>
      let pnl := (exitPrice - entryPrice) * qtyActual
      let exitReason := if order.order_type = "STOP_LOSS" then "STOPPED_OUT" else "TARGET_HIT"
      let db1 := updateTradeRow db order.trade_journal_id (fun t =>
        { t with status := "CLOSED", exit_price := some exitPrice,
                 actual_pnl := some pnl, exit_reason := some exitReason })
      let db2 := { db1 with positions :=
        db1.positions.filter (fun p => decide (p.trade_journal_id ≠ order.trade_journal_id)) }
      let r := cancel_remaining_orders broker db2 order.trade_journal_id ao.id
      ⟨r.1, r.2, true⟩
    | _, _, _ => ⟨db, [], false⟩

/-- Embedding of `OrderMonitor.handle_cancelled_entry_order` (lines 139–174): move the
parent trade ORDERED→CANCELLED, only if it is still ORDERED. -/
def handle_cancelled_entry_order (db : DB) (order : OrderRec) : StepResult :=
  match findTrade db order.trade_journal_id with
  | none => ⟨db, [], false⟩
  | some trade =>
    if trade.status = "ORDERED" then
      ⟨updateTradeRow db order.trade_journal_id (fun t => { t with status := "CANCELLED" }),
       [], true⟩
    else ⟨db, [], true⟩

/-- Embedding of `OrderMonitor.place_stop_loss` (lines 250–312): submit a GTC sell
stop at the planned stop price and record it. -/
def place_stop_loss (broker : Broker) (db : DB) (trade : Trade) (qty : Rat) : StepResult :=
  match trade.planned_stop_loss with
  | none => ⟨db, [], false⟩
  | some stopPrice =>
    match broker.submitStop trade.symbol qty stopPrice with
    | none => ⟨db, [Event.submitOrder trade.symbol qty stopPrice], false⟩
    | some so =>
      let db1 := insertOrder db (fun oid =>
        { id := oid, trade_journal_id := trade.id, alpaca_order_id := so.id,
          order_type := "STOP_LOSS", side := "sell", order_status := "pending",
          time_in_force := "gtc", qty := qty, limit_price := none,
          stop_price := some stopPrice, filled_qty := none,
          filled_avg_price := none, filled_at := none })
      let db2 := { db1 with positions := db1.positions.map (fun p =>
        if p.trade_journal_id = trade.id then { p with stop_loss_order_id := some so.id } else p) }
      ⟨db2, [Event.submitOrder trade.symbol qty stopPrice], true⟩

/-- Embedding of `OrderMonitor.place_take_profit` (lines 314–376): submit a GTC sell
limit at the planned take-profit price and record it. -/
def place_take_profit (broker : Broker) (db : DB) (trade : Trade) (qty : Rat) : StepResult :=
  match trade.planned_take_profit with
  | none => ⟨db, [], false⟩
  | some limitPrice =>
    match broker.submitLimit trade.symbol qty limitPrice with
    | none => ⟨db, [Event.submitOrder trade.symbol qty limitPrice], false⟩
    | some tpo =>
      let db1 := insertOrder db (fun oid =>
        { id := oid, trade_journal_id := trade.id, alpaca_order_id := tpo.id,
          order_type := "TAKE_PROFIT", side := "sell", order_status := "pending",
          time_in_force := "gtc", qty := qty, limit_price := some limitPrice,
          stop_price := none, filled_qty := none,
          filled_avg_price := none, filled_at := none })
      let db2 := { db1 with positions := db1.positions.map (fun p =>
        if p.trade_journal_id = trade.id then { p with take_profit_order_id := some tpo.id } else p) }
      ⟨db2, [Event.submitOrder trade.symbol qty limitPrice], true⟩

/-- Take-profit placement condition of `handle_entry_filled` line 241:
the conjunction of `trade_style` equalling SWING and `planned_take_profit` being truthy. -/
def wantsTakeProfit (trade : Trade) : Bool :=
  decide (trade.trade_style = "SWING") && truthyRat trade.planned_take_profit

/-- Embedding of `OrderMonitor.handle_entry_filled` (lines 176–248): move the parent
trade ORDERED→POSITION (unconditionally — the update carries no status
predicate), create the position snapshot, then place the protective
orders. -/
def handle_entry_filled (broker : Broker) (db : DB) (order : OrderRec)
    (ao : AlpacaOrder) : StepResult :=
  match findTrade db order.trade_journal_id with
  | none => ⟨db, [], false⟩
  | some trade =>
    match ao.filled_avg_price, ao.filled_qty with
    | some filledPrice, some filledQtyActual =>
      let filledQtyDb : Rat := ((max 1 (ratTrunc filledQtyActual) : Int) : Rat)
      let db1 := updateTradeRow db order.trade_journal_id (fun t =>
        { t with status := "POSITION", actual_entry := some filledPrice,
                 actual_qty := some filledQtyDb })
      let costBasis := filledPrice * filledQtyActual
      let db2 := insertPosition db1 (fun pid =>
        { id := pid, trade_journal_id := order.trade_journal_id, symbol := ao.symbol,
          qty := filledQtyDb, avg_entry_price := filledPrice,
          current_price := filledPrice, market_value := costBasis,
          cost_basis := costBasis, unrealized_pnl := 0,
          stop_loss_order_id := none, take_profit_order_id := none })
      let r1 := place_stop_loss broker db2 trade filledQtyActual
      if r1.ok then
        if wantsTakeProfit trade then
          let r2 := place_take_profit broker r1.db trade filledQtyActual
          ⟨r2.db, r1.events ++ r2.events, r2.ok⟩
        else ⟨r1.db, r1.events, true⟩
      else ⟨r1.db, r1.events, false⟩
    | _, _ => ⟨db, [], false⟩

/-- Embedding of `OrderMonitor.sync_order_status` (lines 73–137): re-query the broker,
persist the mapped status and fill fields unconditionally, then branch on
(new status, order type). A broker failure on the query leaves the row
untouched; a handler failure is caught after its partial mutations. -/
def sync_order_status (broker : Broker) (db : DB) (order : OrderRec) : DB × List Event :=
  match broker.getOrder order.alpaca_order_id with
  | none => (db, [])
  | some ao =>
    let ourStatus := statusMap ao.status
    let db1 := updateOrderRow db order.id (fun o =>
      { o with order_status := ourStatus,
               filled_qty := persistFilledQty ao.filled_qty,
               filled_avg_price := persistFilledPrice ao.filled_avg_price,
               filled_at := ao.filled_at })
    if ourStatus = "filled" ∧ order.order_type = "ENTRY" then
      let r := handle_entry_filled broker db1 order ao
      (r.db, r.events)
    else if ourStatus = "filled" ∧
        (order.order_type = "STOP_LOSS" ∨ order.order_type = "TAKE_PROFIT") then
      let r := handle_exit_filled broker db1 order ao
      (r.db, r.events)
    else if ourStatus = "cancelled" ∧ order.order_type = "ENTRY" then
      let r := handle_cancelled_entry_order db1 order
      (r.db, r.events)
    else (db1, [])

/-- Embedding of `OrderMonitor.run` (lines 45–71): fetch the work list once, then sync
each fetched row against the evolving store. -/
def orderMonitorRun (broker : Broker) (db : DB) : DB × List Event :=
  (monitorWorkList db).foldl
    (fun acc o =>
      let r := sync_order_status broker acc.1 o
      (r.1, acc.2 ++ r.2))
    (db, [])

/-! ## Position Monitor (`src/trading/position_monitor.py`) -/

/-- Query of `reconcile_closed_position` lines 174–181 without the
ordering: filled protective orders of the trade. -/
def filledExitOrders (db : DB) (tjid : Nat) : List OrderRec :=
  db.orders.filter (fun o => decide (o.trade_journal_id = tjid ∧
    (o.order_type = "STOP_LOSS" ∨ o.order_type = "TAKE_PROFIT") ∧
    o.order_status = "filled"))

/-- Strict "filled later" on the `filled_at` column under `ORDER BY
filled_at DESC` (a NULL timestamp sorts first under DESC in the store,
so it counts as latest). -/
def fillLater : Option Nat → Option Nat → Bool
  | none, _ => false
  | some _, none => true
  | some x, some y => decide (x < y)

/-- First row of `ORDER BY filled_at DESC LIMIT 1`: the most recently
filled order (earliest row wins ties). -/
def pickLatestFilledExit : List OrderRec → Option OrderRec
  | [] => none
  | o :: os =>
    match pickLatestFilledExit os with
    | none => some o
    | some b => if fillLater o.filled_at b.filled_at then some b else some o

/-- Common tail of `reconcile_closed_position` (lines 200–240): set the
trade CLOSED with the computed exit fields, delete the position row by
id, then best-effort-cancel any still-open protective orders at the
broker (their result is ignored and their local rows are left
untouched — the loop body performs no store write). -/
def reconcileClose (db : DB) (position : Position) (exitPrice pnl : Rat)
    (reason : String) : DB × List Event :=
  let db1 := updateTradeRow db position.trade_journal_id (fun t =>
    { t with status := "CLOSED", exit_price := some exitPrice,
             actual_pnl := some pnl, exit_reason := some reason })
  let db2 := { db1 with positions :=
    db1.positions.filter (fun p => decide (p.id ≠ position.id)) }
  let rem := db2.orders.filter (fun o => decide (o.trade_journal_id = position.trade_journal_id ∧
    (o.order_type = "STOP_LOSS" ∨ o.order_type = "TAKE_PROFIT") ∧
    (o.order_status = "pending" ∨ o.order_status = "new" ∨ o.order_status = "accepted")))
  (db2, rem.map (fun o => Event.cancelOrder o.alpaca_order_id))

/-- Embedding of `PositionMonitor.reconcile_closed_position` (lines 160–243): close
out a tracked position the broker no longer lists. If a filled
protective order exists, its fill price and the quantity of the position row
and average entry drive the exit; otherwise the last persisted mark
price and unrealized P&L do, with reason MANUAL_EXIT. A NULL
`filled_avg_price` on the found order raises before any mutation and is
caught by the handler of the method itself. -/
def reconcile_closed_position (db : DB) (position : Position) : DB × List Event :=
  match pickLatestFilledExit (filledExitOrders db position.trade_journal_id) with
  | some order =>
    match order.filled_avg_price with
    | none => (db, [])
    | some exitPrice =>
      let pnl := (exitPrice - position.avg_entry_price) * position.qty
      let reason := if order.order_type = "STOP_LOSS" then "STOPPED_OUT" else "TARGET_HIT"
      reconcileClose db position exitPrice pnl reason
  | none =>
    reconcileClose db position position.current_price position.unrealized_pnl "MANUAL_EXIT"

/-! ## Decision Executor (`src/trading/order_executor.py`) -/

/-- Ticker normalisation of `handle_new_trade` line 119: strip an
exchange suffix such as `:NYSE`. -/
def stripExchange (ticker : String) : String :=
  (ticker.splitOn ":").headD ticker

/-- Embedding of `OrderExecutor.handle_new_trade` (lines 103–239): validate the
required fields (skip silently when quantity, entry price or stop price
is missing or falsy), submit the entry limit order, create the Trade and
ENTRY Order rows, and mark the decision executed with back-references.
`now` stands for the wall clock read for `execution_time` and the trade
id suffix. -/
def handle_new_trade (broker : Broker) (now : Nat) (db : DB) (d : Decision) : StepResult :=
  let symbol := stripExchange d.ticker
  let side := d.side.getD "buy"
  let strategy := d.strategy.getD "SWING"
  let pat := d.pattern.getD ""
  let tif := (d.time_in_force.getD "gtc").toLower
  match d.qty, d.limit_price, d.stop_price with
  | some q, some entryPrice, some stopPrice =>
    if q = 0 ∨ entryPrice = 0 ∨ stopPrice = 0 then ⟨db, [], true⟩
    else
      match broker.submitLimit symbol q entryPrice with
      | none => ⟨db, [Event.submitOrder symbol q entryPrice], false⟩
      | some so =>
        let r := insertTrade db (fun tid =>
          { id := tid, trade_id := symbol ++ "_" ++ toString now, symbol := symbol,
            trade_style := strategy, pattern := pat, status := "ORDERED",
            planned_entry := some entryPrice, planned_stop_loss := some stopPrice,
            planned_take_profit := if truthyRat d.take_profit_price then d.take_profit_price else none,
            planned_qty := some ((max 1 (ratTrunc q) : Int) : Rat),
            actual_entry := none, actual_qty := none, exit_price := none,
            actual_pnl := none, exit_reason := none })
        let db2 := insertOrder r.1 (fun oid =>
          { id := oid, trade_journal_id := r.2, alpaca_order_id := so.id,
            order_type := "ENTRY", side := side.toLower, order_status := "pending",
            time_in_force := tif, qty := ((max 1 (ratTrunc q) : Int) : Rat),
            limit_price := some entryPrice, stop_price := none,
            filled_qty := none, filled_avg_price := none, filled_at := none })
        let db3 := updateDecisionRow db2 d.analysis_id (fun x =>
          { x with executed := true, execution_time := some now,
                   existing_order_id := some so.id,
                   existing_trade_journal_id := some r.2 })
        ⟨db3, [Event.submitOrder symbol q entryPrice, Event.setExecuted d.analysis_id true], true⟩
  | _, _, _ => ⟨db, [], true⟩

/-- Embedding of `OrderExecutor.handle_cancel` (lines 241–306): with no back-referenced
broker order id (missing or empty — Python truthiness), mark the decision
executed and return; otherwise cancel at the broker, mark the order row
cancelled, move the referenced trade to CANCELLED, and mark the decision
executed. A broker cancel failure raises before any store write. -/
def handle_cancel (broker : Broker) (now : Nat) (db : DB) (d : Decision) : StepResult :=
  let markOnly : StepResult :=
    ⟨updateDecisionRow db d.analysis_id (fun x =>
        { x with executed := true, execution_time := some now }),
     [Event.setExecuted d.analysis_id true], true⟩
  match d.existing_order_id with
  | none => markOnly
  | some oid =>
    if oid = "" then markOnly
    else if broker.cancelOk oid then
      let db1 := markCancelledByAlpacaId db oid
      let db2 :=
        if truthyNat d.existing_trade_journal_id then
          updateTradeRow db1 (d.existing_trade_journal_id.getD 0) (fun t =>
            { t with status := "CANCELLED", exit_reason := some "CANCELLED" })
        else db1
      let db3 := updateDecisionRow db2 d.analysis_id (fun x =>
        { x with executed := true, execution_time := some now })
      ⟨db3, [Event.cancelOrder oid, Event.setExecuted d.analysis_id true], true⟩
    else ⟨db, [Event.cancelOrder oid], false⟩

/-- Embedding of `OrderExecutor.handle_amend` (lines 308–338): cancel via
`handle_cancel`, reset the `executed` flag, then place the replacement
via `handle_new_trade`. A failure at either stage propagates after the
mutations already made. -/
def handle_amend (broker : Broker) (now : Nat) (db : DB) (d : Decision) : StepResult :=
  let r1 := handle_cancel broker now db d
  if r1.ok then
    let db2 := updateDecisionRow r1.db d.analysis_id (fun x => { x with executed := false })
    let r2 := handle_new_trade broker now db2 d
    ⟨r2.db, r1.events ++ [Event.setExecuted d.analysis_id false] ++ r2.events, r2.ok⟩
  else ⟨r1.db, r1.events, false⟩

/-- Embedding of `OrderExecutor.process_decision` (lines 76–101): dispatch on
`primary_action`; unknown actions are logged only; a handler failure is
caught here, keeping its partial effects. -/
def process_decision (broker : Broker) (now : Nat) (db : DB) (d : Decision) : DB × List Event :=
  if d.primary_action = "NEW_TRADE" then
    let r := handle_new_trade broker now db d
    (r.db, r.events)
  else if d.primary_action = "CANCEL" then
    let r := handle_cancel broker now db d
    (r.db, r.events)
  else if d.primary_action = "AMEND" then
    let r := handle_amend broker now db d
    (r.db, r.events)
  else (db, [])

/-- Work list of `OrderExecutor.run` (lines 53–60): approved, unexecuted
decisions whose action requires execution, in `Date_time` order. -/
def eligibleDecisions (db : DB) : List Decision :=
  db.decisions.filter (fun d => decide (d.executed = false ∧ d.approve = true ∧
    (d.primary_action = "NEW_TRADE" ∨ d.primary_action = "CANCEL" ∨ d.primary_action = "AMEND")))

/-- Embedding of `OrderExecutor.run` (lines 46–74): fetch the eligible decisions once
and process each against the evolving store. -/
def orderExecutorRun (broker : Broker) (now : Nat) (db : DB) : DB × List Event :=
  (eligibleDecisions db).foldl
    (fun acc d =>
      let r := process_decision broker now acc.1 d
      (r.1, acc.2 ++ r.2))
    (db, [])

/-- Writes of the `executed` flag of one decision, in trace order. -/
def execWrites (evs : List Event) (aid : String) : List Bool :=
  evs.filterMap (fun e =>
    match e with
    | Event.setExecuted a v => if a = aid then some v else none
    | _ => none)

/-- Number of false→true transitions of a flag along a write trace
starting from `cur`. -/
def countRises : Bool → List Bool → Nat
  | _, [] => 0
  | cur, b :: bs => (if b ∧ ¬cur then 1 else 0) + countRises b bs

/-! ## Concrete fixtures used by witnesses and counterexamples -/

/-- Sample trade row in ORDERED status. -/
def trade0 : Trade :=
  { id := 1, trade_id := "AAPL_1", symbol := "AAPL", trade_style := "SWING",
    pattern := "flag", status := "ORDERED", planned_entry := some 10,
    planned_stop_loss := some 9, planned_take_profit := some 12,
    planned_qty := some 5, actual_entry := none, actual_qty := none,
    exit_price := none, actual_pnl := none, exit_reason := none }

/-- Sample pending ENTRY order row for `trade0`. -/
def entryOrder0 : OrderRec :=
  { id := 1, trade_journal_id := 1, alpaca_order_id := "E1", order_type := "ENTRY",
    side := "buy", order_status := "pending", time_in_force := "gtc", qty := 5,
    limit_price := some 10, stop_price := none, filled_qty := none,
    filled_avg_price := none, filled_at := none }

/-- Sample broker fill report for `entryOrder0`. -/
def aoFilled0 : AlpacaOrder :=
  { id := "E1", client_order_id := "CE1", symbol := "AAPL", status := "filled",
    filled_qty := some 5, filled_avg_price := some 10, filled_at := some 100 }

/-- Broker double whose every call succeeds with fixed acknowledgements
and whose order query returns `resp`. -/
def testBroker (resp : Option AlpacaOrder) : Broker :=
  { getOrder := fun _ => resp,
    submitStop := fun _ _ _ => some { id := "S1", client_order_id := "CS1" },
    submitLimit := fun _ _ _ => some { id := "L1", client_order_id := "CL1" },
    cancelOk := fun _ => true }

/-- Store with a single pending entry order and its ORDERED trade. -/
def dbOrdered0 : DB :=
  { decisions := [], trades := [trade0], orders := [entryOrder0], positions := [] }

/-- Store whose only order row is already persisted as filled. -/
def dbFilled0 : DB :=
  { decisions := [], trades := [trade0],
    orders := [{ entryOrder0 with order_status := "filled" }], positions := [] }

/-! ## Helper lemmas -/

/-- Concrete NEW_TRADE decision whose quantity is absent. -/
def dNewMissing0 : Decision :=
  { analysis_id := "A2", ticker := "MSFT:NYSE", approve := true, executed := false,
    execution_time := none, primary_action := "NEW_TRADE", side := some "buy",
    qty := none, limit_price := some 10, stop_price := some 9,
    take_profit_price := none, strategy := some "SWING", pattern := none,
    time_in_force := none, existing_order_id := none, existing_trade_journal_id := none }

/-- Concrete CANCEL decision with no back-referenced order id. -/
def dCancelNoRef0 : Decision :=
  { dNewMissing0 with analysis_id := "A3", primary_action := "CANCEL" }

/-- Store state produced by the mutating part of `handle_exit_filled`
before the sibling-cancellation pass. -/
def exitFillClosedDB (db : DB) (tjid : Nat) (exitPrice pnl : Rat) (reason : String) : DB :=
  { db with
      trades := db.trades.map (fun t =>
        if t.id = tjid then
          { t with status := "CLOSED", exit_price := some exitPrice,
                   actual_pnl := some pnl, exit_reason := some reason }
        else t),
      positions := db.positions.filter (fun p => decide (p.trade_journal_id ≠ tjid)) }

/-- Trade row of `dbExit0` holding an open position. -/
def tradePos0 : Trade :=
  { trade0 with status := "POSITION", actual_entry := some 10, actual_qty := some 5 }

/-- Open stop-loss order row for `tradePos0`. -/
def slOpen0 : OrderRec :=
  { id := 2, trade_journal_id := 1, alpaca_order_id := "S1", order_type := "STOP_LOSS",
    side := "sell", order_status := "pending", time_in_force := "gtc", qty := 5,
    limit_price := none, stop_price := some 9, filled_qty := none,
    filled_avg_price := none, filled_at := none }

/-- Open take-profit sibling order row for `tradePos0`. -/
def tpOpen0 : OrderRec :=
  { id := 3, trade_journal_id := 1, alpaca_order_id := "T1", order_type := "TAKE_PROFIT",
    side := "sell", order_status := "pending", time_in_force := "gtc", qty := 5,
    limit_price := some 12, stop_price := none, filled_qty := none,
    filled_avg_price := none, filled_at := none }

/-- Broker fill report for `slOpen0`. -/
def aoSLfill0 : AlpacaOrder :=
  { id := "S1", client_order_id := "CS1", symbol := "AAPL", status := "filled",
    filled_qty := some 5, filled_avg_price := some 9, filled_at := some 200 }

/-- Position row tracked for `tradePos0`. -/
def posOpen0 : Position :=
  { id := 1, trade_journal_id := 1, symbol := "AAPL", qty := 5, avg_entry_price := 10,
    current_price := 10, market_value := 50, cost_basis := 50, unrealized_pnl := 0,
    stop_loss_order_id := some "S1", take_profit_order_id := some "T1" }

/-- Store with an open position, its trade, and both protective orders. -/
def dbExit0 : DB :=
  { decisions := [], trades := [tradePos0], orders := [slOpen0, tpOpen0],
    positions := [posOpen0] }

/-- Store holding an already CLOSED trade and its stale entry order. -/
def dbClosed0 : DB :=
  { decisions := [], trades := [{ trade0 with status := "CLOSED" }],
    orders := [entryOrder0], positions := [] }

/-- TREND-style trade that nevertheless has a planned take-profit. -/
def tradeTrend0 : Trade :=
  { trade0 with trade_style := "TREND", planned_take_profit := some 100 }

/-- Store with a TREND-style trade that has a planned take-profit. -/
def dbTrend0 : DB :=
  { decisions := [], trades := [tradeTrend0], orders := [entryOrder0], positions := [] }

/-- Protective order row as inserted by `place_stop_loss` /
`place_take_profit` (sell, pending, GTC). -/
def protectiveRow (oid tjid : Nat) (aid otype : String) (qty : Rat) (lp sp : Option Rat) : OrderRec :=
  { id := oid, trade_journal_id := tjid, alpaca_order_id := aid, order_type := otype,
    side := "sell", order_status := "pending", time_in_force := "gtc", qty := qty,
    limit_price := lp, stop_price := sp, filled_qty := none, filled_avg_price := none,
    filled_at := none }

/-- Concrete approved AMEND decision with a back-referenced order. -/
def dAmend0 : Decision :=
  { analysis_id := "A1", ticker := "AAPL", approve := true, executed := false,
    execution_time := none, primary_action := "AMEND", side := some "buy",
    qty := some 5, limit_price := some 10, stop_price := some 9,
    take_profit_price := some 12, strategy := some "SWING", pattern := some "flag",
    time_in_force := some "gtc", existing_order_id := some "O1",
    existing_trade_journal_id := some 1 }

/-- Store holding the AMEND decision, its trade and its entry order. -/
def dbAmend0 : DB :=
  { decisions := [dAmend0], trades := [trade0], orders := [entryOrder0], positions := [] }

/-- Position record whose stored quantity (1) differs from the fill
quantity (2) of its filled stop-loss order. -/
def posRec0 : Position :=
  { id := 1, trade_journal_id := 1, symbol := "AAPL", qty := 1, avg_entry_price := 10,
    current_price := 11, market_value := 11, cost_basis := 10, unrealized_pnl := 1,
    stop_loss_order_id := none, take_profit_order_id := none }

/-- Filled stop-loss order with fill quantity 2 at price 12. -/
def slFilledFrac0 : OrderRec :=
  { id := 2, trade_journal_id := 1, alpaca_order_id := "SL1", order_type := "STOP_LOSS",
    side := "sell", order_status := "filled", time_in_force := "gtc", qty := 2,
    limit_price := none, stop_price := some 9, filled_qty := some 2,
    filled_avg_price := some 12, filled_at := some 50 }

/-- Store for the reconciliation counterexample. -/
def dbRecon0 : DB :=
  { decisions := [], trades := [tradePos0], orders := [slFilledFrac0],
    positions := [posRec0] }

/-- Membership in the monitor work list is exactly membership in the
store with a status in the seven-status list. -/
theorem mem_monitorWorkList (db : DB) (o : OrderRec) :
    o ∈ monitorWorkList db ↔ o ∈ db.orders ∧ o.order_status ∈ monitorStatuses := by
  simp [monitorWorkList, List.mem_filter]

/-! ## Claims -/

/-- C8: the Order Reconciler run work-list selects exactly the orders
whose local status is one of pending / partially_filled / new / accepted
/ expired / cancelled / rejected; "filled" is not among them, so an
order whose persisted status is "filled" is never selected by any run
and its fill handlers are never re-invoked for it. -/
theorem filled_orders_never_reselected (db : DB) (o : OrderRec) :
    (o ∈ monitorWorkList db ↔ o ∈ db.orders ∧ o.order_status ∈ monitorStatuses) ∧
    "filled" ∉ monitorStatuses ∧
    (o.order_status = "filled" → o ∉ monitorWorkList db) := by
  refine ⟨mem_monitorWorkList db o, by decide, fun hf hm => ?_⟩
  have h := (mem_monitorWorkList db o).mp hm
  rw [hf] at h
  exact absurd h.2 (by decide)

/-- C8 witness: a concrete filled order is not selected. -/
theorem filled_orders_never_reselected_witness :
    ({ entryOrder0 with order_status := "filled" } : OrderRec) ∉ monitorWorkList dbFilled0 :=
  (filled_orders_never_reselected dbFilled0 _).2.2 rfl

/-- C7: retry safety of the Order Reconciler. An order whose local
status is still one of the monitored (non-terminal-or-recently-terminal)
statuses is selected by the next run, and the entire outcome of its sync
step is independent of that local status — it is a function of the
broker re-queried state only. Hence a run that stopped after a broker
action but before the local order-status persistence leaves the order
selectable, and the next sync re-derives and completes all side effects
from the broker answer. -/
theorem monitor_retry_safe (broker : Broker) (db : DB) (o : OrderRec) (s : String)
    (ho : o ∈ db.orders) (hs : o.order_status ∈ monitorStatuses) :
    o ∈ monitorWorkList db ∧
    sync_order_status broker db { o with order_status := s } =
      sync_order_status broker db o :=
  ⟨(mem_monitorWorkList db o).mpr ⟨ho, hs⟩, rfl⟩

/-- C7 witness: a concrete pending order is selected and its sync is
insensitive to the locally persisted status. -/
theorem monitor_retry_safe_witness :
    entryOrder0 ∈ monitorWorkList dbOrdered0 ∧
    sync_order_status (testBroker (some aoFilled0)) dbOrdered0
        { entryOrder0 with order_status := "partially_filled" } =
      sync_order_status (testBroker (some aoFilled0)) dbOrdered0 entryOrder0 :=
  monitor_retry_safe (testBroker (some aoFilled0)) dbOrdered0 entryOrder0
    "partially_filled" (by decide) (by decide)

/-- C9: a NEW_TRADE decision with a missing or falsy quantity, entry
limit price, or stop price is skipped without raising: the handler
returns normally, the store is unchanged (no Trade, no Order, `executed`
still false), and no broker call is made. -/
theorem new_trade_validation_guard (broker : Broker) (now : Nat) (db : DB) (d : Decision)
    (ha : d.primary_action = "NEW_TRADE")
    (hv : truthyRat d.qty = false ∨ truthyRat d.limit_price = false ∨
          truthyRat d.stop_price = false) :
    handle_new_trade broker now db d = ⟨db, [], true⟩ ∧
    process_decision broker now db d = (db, []) := by
  have hnt : handle_new_trade broker now db d = ⟨db, [], true⟩ := by
    unfold handle_new_trade
    rcases hq : d.qty with _ | q <;> rcases hl : d.limit_price with _ | l <;>
      rcases hs2 : d.stop_price with _ | s2
    all_goals try rfl
    rw [hq, hl, hs2] at hv
    simp only [truthyRat, decide_eq_false_iff_not, not_not] at hv
    dsimp only
    rw [if_pos hv]
  exact ⟨hnt, by simp [process_decision, ha, hnt]⟩

/-- C9 witness: the concrete invalid decision leaves the store untouched. -/
theorem new_trade_validation_guard_witness :
    handle_new_trade (testBroker none) 3 dbOrdered0 dNewMissing0 = ⟨dbOrdered0, [], true⟩ ∧
    process_decision (testBroker none) 3 dbOrdered0 dNewMissing0 = (dbOrdered0, []) :=
  new_trade_validation_guard (testBroker none) 3 dbOrdered0 dNewMissing0 rfl (Or.inl rfl)

/-- C10: a CANCEL decision without a back-referenced broker order id
(missing or empty) is marked executed with an execution time and nothing
else happens: no broker call is made (the only emitted effect is the
`executed` write) and the trade, order and position tables are
unchanged. -/
theorem cancel_without_reference (broker : Broker) (now : Nat) (db : DB) (d : Decision)
    (h : truthyStr d.existing_order_id = false) :
    handle_cancel broker now db d =
      ⟨updateDecisionRow db d.analysis_id (fun x =>
          { x with executed := true, execution_time := some now }),
       [Event.setExecuted d.analysis_id true], true⟩ ∧
    (handle_cancel broker now db d).db.trades = db.trades ∧
    (handle_cancel broker now db d).db.orders = db.orders ∧
    (handle_cancel broker now db d).db.positions = db.positions := by
  have hm : handle_cancel broker now db d =
      ⟨updateDecisionRow db d.analysis_id (fun x =>
          { x with executed := true, execution_time := some now }),
       [Event.setExecuted d.analysis_id true], true⟩ := by
    unfold handle_cancel
    rcases ho : d.existing_order_id with _ | oid
    · rfl
    · rw [ho] at h
      simp only [truthyStr, decide_eq_false_iff_not, not_not] at h
      dsimp only
      rw [if_pos h]
  exact ⟨hm, by rw [hm]; rfl, by rw [hm]; rfl, by rw [hm]; rfl⟩

/-- C10 witness: the concrete unreferenced CANCEL only marks the
decision executed. -/
theorem cancel_without_reference_witness :
    handle_cancel (testBroker none) 5 dbOrdered0 dCancelNoRef0 =
      ⟨updateDecisionRow dbOrdered0 "A3" (fun x =>
          { x with executed := true, execution_time := some 5 }),
       [Event.setExecuted "A3" true], true⟩ :=
  (cancel_without_reference (testBroker none) 5 dbOrdered0 dCancelNoRef0 rfl).1

/-- One cancellation step touches only the orders table. -/
theorem cancelStep_preserves (broker : Broker) (acc : DB × List Event) (o : OrderRec) :
    (cancelStep broker acc o).1.trades = acc.1.trades ∧
    (cancelStep broker acc o).1.positions = acc.1.positions ∧
    (cancelStep broker acc o).1.decisions = acc.1.decisions := by
  unfold cancelStep markCancelledByAlpacaId
  split <;> exact ⟨rfl, rfl, rfl⟩

/-- The cancellation loop touches only the orders table. -/
theorem cancelFold_preserves (broker : Broker) (l : List OrderRec) (acc : DB × List Event) :
    (l.foldl (cancelStep broker) acc).1.trades = acc.1.trades ∧
    (l.foldl (cancelStep broker) acc).1.positions = acc.1.positions ∧
    (l.foldl (cancelStep broker) acc).1.decisions = acc.1.decisions := by
  induction l generalizing acc with
  | nil => exact ⟨rfl, rfl, rfl⟩
  | cons o l ih =>
    rw [List.foldl_cons]
    have h1 := ih (cancelStep broker acc o)
    have h2 := cancelStep_preserves broker acc o
    exact ⟨h1.1.trans h2.1, h1.2.1.trans h2.2.1, h1.2.2.trans h2.2.2⟩

/-- Embedding of `cancel_remaining_orders` touches only the orders table. -/
theorem cancel_remaining_preserves (broker : Broker) (db : DB) (tjid : Nat) (fid : String) :
    (cancel_remaining_orders broker db tjid fid).1.trades = db.trades ∧
    (cancel_remaining_orders broker db tjid fid).1.positions = db.positions ∧
    (cancel_remaining_orders broker db tjid fid).1.decisions = db.decisions := by
  unfold cancel_remaining_orders
  exact cancelFold_preserves broker _ (db, [])

/-- On the success path `handle_exit_filled` is the close-out update
followed by the sibling-cancellation pass. -/
theorem handle_exit_filled_eq (broker : Broker) (db : DB) (order : OrderRec)
    (ao : AlpacaOrder) (trade : Trade) (exitPrice entryPrice fillQty : Rat)
    (ht : findTrade db order.trade_journal_id = some trade)
    (hp : ao.filled_avg_price = some exitPrice)
    (he : trade.actual_entry = some entryPrice)
    (hq : ao.filled_qty = some fillQty) :
    handle_exit_filled broker db order ao =
      ⟨(cancel_remaining_orders broker
          (exitFillClosedDB db order.trade_journal_id exitPrice
            ((exitPrice - entryPrice) * fillQty)
            (if order.order_type = "STOP_LOSS" then "STOPPED_OUT" else "TARGET_HIT"))
          order.trade_journal_id ao.id).1,
       (cancel_remaining_orders broker
          (exitFillClosedDB db order.trade_journal_id exitPrice
            ((exitPrice - entryPrice) * fillQty)
            (if order.order_type = "STOP_LOSS" then "STOPPED_OUT" else "TARGET_HIT"))
          order.trade_journal_id ao.id).2,
       true⟩ := by
  unfold handle_exit_filled
  rw [ht]
  dsimp only
  rw [hp, he, hq]
  rfl

/-- C1: a filled STOP_LOSS or TAKE_PROFIT order processed by
`handle_exit_filled` closes the parent trade with realized P&L
(fill price − actual entry price) × fill quantity, exit reason
STOPPED_OUT for a stop-loss fill and TARGET_HIT for a take-profit fill,
and deletes the trade position rows. -/
theorem exit_fill_closes_trade (broker : Broker) (db : DB) (order : OrderRec)
    (ao : AlpacaOrder) (trade : Trade) (exitPrice entryPrice fillQty : Rat)
    (ht : findTrade db order.trade_journal_id = some trade)
    (hp : ao.filled_avg_price = some exitPrice)
    (he : trade.actual_entry = some entryPrice)
    (hq : ao.filled_qty = some fillQty) :
    (handle_exit_filled broker db order ao).ok = true ∧
    (∀ t ∈ (handle_exit_filled broker db order ao).db.trades,
       t.id = order.trade_journal_id →
       t.status = "CLOSED" ∧ t.exit_price = some exitPrice ∧
       t.actual_pnl = some ((exitPrice - entryPrice) * fillQty) ∧
       (order.order_type = "STOP_LOSS" → t.exit_reason = some "STOPPED_OUT") ∧
       (order.order_type ≠ "STOP_LOSS" → t.exit_reason = some "TARGET_HIT")) ∧
    (∀ p ∈ (handle_exit_filled broker db order ao).db.positions,
       p.trade_journal_id ≠ order.trade_journal_id) := by
  rw [handle_exit_filled_eq broker db order ao trade exitPrice entryPrice fillQty ht hp he hq]
  refine ⟨rfl, ?_, ?_⟩
  · intro t htmem htid
    rw [(cancel_remaining_preserves broker _ _ _).1] at htmem
    simp only [exitFillClosedDB, List.mem_map] at htmem
    obtain ⟨t0, _, hteq⟩ := htmem
    by_cases h0 : t0.id = order.trade_journal_id
    · rw [if_pos h0] at hteq
      subst hteq
      refine ⟨rfl, rfl, rfl, fun hsl => ?_, fun hsl => ?_⟩
      · simp [hsl]
      · simp [hsl]
    · rw [if_neg h0] at hteq
      subst hteq
      exact absurd htid h0
  · intro p hpmem
    rw [(cancel_remaining_preserves broker _ _ _).2.1] at hpmem
    simp only [exitFillClosedDB, List.mem_filter, decide_eq_true_iff] at hpmem
    exact hpmem.2

/-- C1 witness: the concrete stop-loss fill closes the trade at
P&L (9 − 10) × 5. -/
theorem exit_fill_closes_trade_witness :
    (handle_exit_filled (testBroker none) dbExit0 slOpen0 aoSLfill0).ok = true ∧
    (∀ t ∈ (handle_exit_filled (testBroker none) dbExit0 slOpen0 aoSLfill0).db.trades,
       t.id = slOpen0.trade_journal_id →
       t.status = "CLOSED" ∧ t.exit_price = some 9 ∧
       t.actual_pnl = some ((9 - 10) * 5) ∧
       (slOpen0.order_type = "STOP_LOSS" → t.exit_reason = some "STOPPED_OUT") ∧
       (slOpen0.order_type ≠ "STOP_LOSS" → t.exit_reason = some "TARGET_HIT")) ∧
    (∀ p ∈ (handle_exit_filled (testBroker none) dbExit0 slOpen0 aoSLfill0).db.positions,
       p.trade_journal_id ≠ slOpen0.trade_journal_id) :=
  exit_fill_closes_trade (testBroker none) dbExit0 slOpen0 aoSLfill0 tradePos0
    9 10 5 (by decide) rfl rfl rfl

/-- Stop-loss placement never touches the trades table. -/
theorem place_stop_loss_trades (broker : Broker) (db : DB) (trade : Trade) (qty : Rat) :
    (place_stop_loss broker db trade qty).db.trades = db.trades := by
  unfold place_stop_loss
  cases h1 : trade.planned_stop_loss with
  | none => rfl
  | some sp =>
    dsimp only
    cases h2 : broker.submitStop trade.symbol qty sp <;> rfl

/-- Take-profit placement never touches the trades table. -/
theorem place_take_profit_trades (broker : Broker) (db : DB) (trade : Trade) (qty : Rat) :
    (place_take_profit broker db trade qty).db.trades = db.trades := by
  unfold place_take_profit
  cases h1 : trade.planned_take_profit with
  | none => rfl
  | some lp =>
    dsimp only
    cases h2 : broker.submitLimit trade.symbol qty lp <;> rfl

/-- On a fill report with price and quantity present, `handle_entry_filled`
rewrites the parent trade row to POSITION with the fill data —
unconditionally on the trade prior status. -/
theorem handle_entry_filled_trades (broker : Broker) (db : DB) (order : OrderRec)
    (ao : AlpacaOrder) (trade : Trade) (p q : Rat)
    (ht : findTrade db order.trade_journal_id = some trade)
    (hp : ao.filled_avg_price = some p) (hq : ao.filled_qty = some q) :
    (handle_entry_filled broker db order ao).db.trades =
      db.trades.map (fun t =>
        if t.id = order.trade_journal_id then
          { t with status := "POSITION", actual_entry := some p,
                   actual_qty := some ((max 1 (ratTrunc q) : Int) : Rat) }
        else t) := by
  unfold handle_entry_filled
  rw [ht]
  dsimp only
  rw [hp, hq]
  dsimp only
  split
  · split
    · rw [place_take_profit_trades, place_stop_loss_trades]
      rfl
    · rw [place_stop_loss_trades]
      rfl
  · rw [place_stop_loss_trades]
    rfl

/-- C2 counterexample: the entry-fill transition is not status-gated —
applied to a trade already in CLOSED status, `handle_entry_filled`
mutates it to POSITION instead of being a no-op. -/
theorem status_gated_transitions_cex :
    ((handle_entry_filled (testBroker none) dbClosed0 entryOrder0 aoFilled0).db.trades.map
        Trade.status = ["POSITION"]) ∧
    ("CLOSED" : String) ≠ "ORDERED" ∧
    (handle_entry_filled (testBroker none) dbClosed0 entryOrder0 aoFilled0).db ≠ dbClosed0 := by
  decide

/-- C2 amended: of the trade-status transitions performed by the jobs,
only the cancellation path (ORDERED→CANCELLED in
`handle_cancelled_entry_order`) is status-gated — it re-reads the trade
and is a no-op whenever the trade is not exactly ORDERED. The entry-fill
(→POSITION) and exit-fill (→CLOSED) updates carry no status predicate
and are applied whatever the trade current status is; replay safety for
them comes from the run work-list excluding filled orders, not from
gating. -/
theorem status_gated_transitions_amended :
    (∀ db order trade, findTrade db order.trade_journal_id = some trade →
       trade.status ≠ "ORDERED" → handle_cancelled_entry_order db order = ⟨db, [], true⟩) ∧
    (∀ db order trade, findTrade db order.trade_journal_id = some trade →
       trade.status = "ORDERED" →
       handle_cancelled_entry_order db order =
         ⟨updateTradeRow db order.trade_journal_id
            (fun t => { t with status := "CANCELLED" }), [], true⟩) ∧
    (∀ broker db order ao trade p q,
       findTrade db order.trade_journal_id = some trade →
       ao.filled_avg_price = some p → ao.filled_qty = some q →
       ∀ t ∈ (handle_entry_filled broker db order ao).db.trades,
         t.id = order.trade_journal_id → t.status = "POSITION") ∧
    (∀ broker db order ao trade pe ee qe,
       findTrade db order.trade_journal_id = some trade →
       ao.filled_avg_price = some pe → trade.actual_entry = some ee →
       ao.filled_qty = some qe →
       ∀ t ∈ (handle_exit_filled broker db order ao).db.trades,
         t.id = order.trade_journal_id → t.status = "CLOSED") := by
  refine ⟨?_, ?_, ?_, ?_⟩
  · intro db order trade ht hs
    unfold handle_cancelled_entry_order
    rw [ht]
    dsimp only
    rw [if_neg hs]
  · intro db order trade ht hs
    unfold handle_cancelled_entry_order
    rw [ht]
    dsimp only
    rw [if_pos hs]
  · intro broker db order ao trade p q ht hp hq t htmem htid
    rw [handle_entry_filled_trades broker db order ao trade p q ht hp hq] at htmem
    simp only [List.mem_map] at htmem
    obtain ⟨t0, _, hteq⟩ := htmem
    by_cases h0 : t0.id = order.trade_journal_id
    · rw [if_pos h0] at hteq
      subst hteq
      rfl
    · rw [if_neg h0] at hteq
      subst hteq
      exact absurd htid h0
  · intro broker db order ao trade pe ee qe ht hp he hq t htmem htid
    rw [handle_exit_filled_eq broker db order ao trade pe ee qe ht hp he hq] at htmem
    rw [(cancel_remaining_preserves broker _ _ _).1] at htmem
    simp only [exitFillClosedDB, List.mem_map] at htmem
    obtain ⟨t0, _, hteq⟩ := htmem
    by_cases h0 : t0.id = order.trade_journal_id
    · rw [if_pos h0] at hteq
      subst hteq
      rfl
    · rw [if_neg h0] at hteq
      subst hteq
      exact absurd htid h0

/-- C2 amended witness: the concrete cancellation against a CLOSED trade
is a no-op. -/
theorem status_gated_transitions_amended_witness :
    handle_cancelled_entry_order dbClosed0 entryOrder0 = ⟨dbClosed0, [], true⟩ :=
  status_gated_transitions_amended.1 dbClosed0 entryOrder0
    { trade0 with status := "CLOSED" } (by decide) (by decide)

/-- C3 counterexample: a trade whose planned take-profit exists (is
truthy) but whose style is not SWING gets no TAKE_PROFIT order from a
successful entry-fill handling — the placement condition is
`trade_style` equalling SWING together with a truthy `planned_take_profit`, not the existence of a
planned take-profit alone. -/
theorem protective_orders_cex :
    (handle_entry_filled (testBroker none) dbTrend0 entryOrder0 aoFilled0).ok = true ∧
    truthyRat tradeTrend0.planned_take_profit = true ∧
    ((handle_entry_filled (testBroker none) dbTrend0 entryOrder0 aoFilled0).db.orders.filter
        (fun o => decide (o.order_type = "TAKE_PROFIT"))).length = 0 := by
  decide

/-- C3 amended: on a successful entry fill the handler appends exactly
one STOP_LOSS order row at the trade planned stop price for the actual
filled quantity — always — and appends a TAKE_PROFIT order row (at the
planned take-profit, same quantity) if and only if the trade style is
SWING and the planned take-profit is set and nonzero
(`wantsTakeProfit`), not merely when a planned take-profit exists. -/
theorem protective_orders_on_entry_fill (broker : Broker) (db : DB) (order : OrderRec)
    (ao : AlpacaOrder) (trade : Trade) (p q slp : Rat) (so tpo : SubmittedOrder)
    (ht : findTrade db order.trade_journal_id = some trade)
    (hp : ao.filled_avg_price = some p) (hq : ao.filled_qty = some q)
    (hsl : trade.planned_stop_loss = some slp)
    (hsub : broker.submitStop trade.symbol q slp = some so)
    (htp : ∀ pr, broker.submitLimit trade.symbol q pr = some tpo) :
    (handle_entry_filled broker db order ao).ok = true ∧
    (handle_entry_filled broker db order ao).db.orders =
      (db.orders ++ [protectiveRow (freshId (db.orders.map OrderRec.id)) trade.id so.id "STOP_LOSS" q none (some slp)]) ++
      (if wantsTakeProfit trade then [protectiveRow (freshId ((db.orders ++ [protectiveRow (freshId (db.orders.map OrderRec.id)) trade.id so.id "STOP_LOSS" q none (some slp)]).map OrderRec.id)) trade.id tpo.id "TAKE_PROFIT" q trade.planned_take_profit none] else []) := by
  unfold handle_entry_filled
  rw [ht]
  dsimp only
  rw [hp, hq]
  dsimp only
  unfold place_stop_loss
  rw [hsl]
  dsimp only
  rw [hsub]
  dsimp only
  by_cases hw : wantsTakeProfit trade = true
  · obtain ⟨lp, hlp⟩ : ∃ lp, trade.planned_take_profit = some lp := by
      unfold wantsTakeProfit at hw
      rcases h : trade.planned_take_profit with _ | lp
      · rw [h] at hw
        simp [truthyRat] at hw
      · exact ⟨lp, rfl⟩
    rw [if_pos hw]
    unfold place_take_profit
    rw [hlp]
    dsimp only
    rw [htp lp]
    dsimp only
    rw [if_pos (show true = true from rfl)]
    rw [if_pos hw]
    refine ⟨?_, ?_⟩ <;> rfl
  · rw [if_neg hw]
    rw [if_pos (show true = true from rfl)]
    rw [if_neg hw, List.append_nil]
    refine ⟨?_, ?_⟩ <;> rfl

/-- C3 amended witness: a concrete SWING trade with a planned
take-profit gets both protective orders recorded. -/
theorem protective_orders_on_entry_fill_witness :
    (handle_entry_filled (testBroker none) dbOrdered0 entryOrder0 aoFilled0).ok = true ∧
    (handle_entry_filled (testBroker none) dbOrdered0 entryOrder0 aoFilled0).db.orders =
      (dbOrdered0.orders ++ [protectiveRow (freshId (dbOrdered0.orders.map OrderRec.id)) trade0.id "S1" "STOP_LOSS" 5 none (some 9)]) ++
      (if wantsTakeProfit trade0 then [protectiveRow (freshId ((dbOrdered0.orders ++ [protectiveRow (freshId (dbOrdered0.orders.map OrderRec.id)) trade0.id "S1" "STOP_LOSS" 5 none (some 9)]).map OrderRec.id)) trade0.id "L1" "TAKE_PROFIT" 5 trade0.planned_take_profit none] else []) :=
  protective_orders_on_entry_fill (testBroker none) dbOrdered0 entryOrder0 aoFilled0
    trade0 10 5 9 ⟨"S1", "CS1"⟩ ⟨"L1", "CL1"⟩ (by decide) rfl rfl rfl rfl (fun _ => rfl)

/-- C4 counterexample: a successful AMEND run writes the decision
`executed` flag true, then false (the reset before re-placement), then
true again — the false→true transition happens twice in one run, not at
most once. -/
theorem executed_at_most_once_cex :
    countRises false (execWrites (orderExecutorRun (testBroker none) 7 dbAmend0).2 "A1") = 2 ∧
    ¬ countRises false (execWrites (orderExecutorRun (testBroker none) 7 dbAmend0).2 "A1") ≤ 1 := by
  decide

/-- The NEW_TRADE handler writes the `executed` flag of any fixed
decision at most once, and only the value `true`. -/
theorem handle_new_trade_execWrites (broker : Broker) (now : Nat) (db : DB)
    (d : Decision) (aid : String) :
    execWrites (handle_new_trade broker now db d).events aid = [] ∨
    execWrites (handle_new_trade broker now db d).events aid = [true] := by
  unfold handle_new_trade
  rcases hq : d.qty with _ | q
  · left; rfl
  · rcases hl : d.limit_price with _ | l
    · left; rfl
    · rcases hs2 : d.stop_price with _ | s2
      · left; rfl
      · dsimp only
        split
        · left; rfl
        · rcases hsub : broker.submitLimit (stripExchange d.ticker) q l with _ | so
          · left; rfl
          · dsimp only
            by_cases haid : d.analysis_id = aid
            · right; simp [execWrites, haid]
            · left; simp [execWrites, haid]

/-- The CANCEL handler writes the `executed` flag of any fixed decision
at most once, and only the value `true`. -/
theorem handle_cancel_execWrites (broker : Broker) (now : Nat) (db : DB)
    (d : Decision) (aid : String) :
    execWrites (handle_cancel broker now db d).events aid = [] ∨
    execWrites (handle_cancel broker now db d).events aid = [true] := by
  unfold handle_cancel
  rcases ho : d.existing_order_id with _ | oid
  · by_cases haid : d.analysis_id = aid
    · right; simp [execWrites, haid]
    · left; simp [execWrites, haid]
  · dsimp only
    by_cases hempty : oid = ""
    · rw [if_pos hempty]
      by_cases haid : d.analysis_id = aid
      · right; simp [execWrites, haid]
      · left; simp [execWrites, haid]
    · rw [if_neg hempty]
      by_cases hc : broker.cancelOk oid = true
      · rw [if_pos hc]
        dsimp only
        by_cases haid : d.analysis_id = aid
        · right; simp [execWrites, haid]
        · left; simp [execWrites, haid]
      · rw [if_neg hc]
        left; simp [execWrites]

/-- C4 amended: a run never selects a decision already marked executed,
and for NEW_TRADE and CANCEL decisions the `executed` flag rises
false→true at most once per processing; the AMEND path violates the
global at-most-once bound because it marks the decision executed during
its embedded cancel, resets the flag to false, and marks it executed
again after placing the replacement order. -/
theorem executed_at_most_once_amended :
    (∀ (db : DB) (d : Decision), d.executed = true → d ∉ eligibleDecisions db) ∧
    (∀ (broker : Broker) (now : Nat) (db : DB) (d : Decision),
       d.primary_action = "NEW_TRADE" ∨ d.primary_action = "CANCEL" →
       countRises false (execWrites (process_decision broker now db d).2 d.analysis_id) ≤ 1) := by
  constructor
  · intro db d hex hmem
    rw [eligibleDecisions, List.mem_filter] at hmem
    simp only [decide_eq_true_iff] at hmem
    rw [hex] at hmem
    exact absurd hmem.2.1 (by decide)
  · intro broker now db d ha
    rcases ha with ha | ha
    · unfold process_decision
      rw [if_pos ha]
      dsimp only
      rcases handle_new_trade_execWrites broker now db d d.analysis_id with h | h <;>
        rw [h] <;> decide
    · unfold process_decision
      rw [ha]
      rw [if_neg (show ¬("CANCEL" = "NEW_TRADE") by decide), if_pos rfl]
      dsimp only
      rcases handle_cancel_execWrites broker now db d d.analysis_id with h | h <;>
        rw [h] <;> decide

/-- C4 amended witness: an executed copy of the AMEND decision is not
selected, and processing a concrete CANCEL decision raises the flag at
most once. -/
theorem executed_at_most_once_amended_witness :
    ({ dAmend0 with executed := true } : Decision) ∉ eligibleDecisions dbAmend0 ∧
    countRises false (execWrites (process_decision (testBroker none) 7 dbAmend0
        { dAmend0 with primary_action := "CANCEL" }).2 "A1") ≤ 1 :=
  ⟨executed_at_most_once_amended.1 dbAmend0 _ rfl,
   executed_at_most_once_amended.2 (testBroker none) 7 dbAmend0
     { dAmend0 with primary_action := "CANCEL" } (Or.inr rfl)⟩

/-- The cancellation loop emits exactly one broker cancel attempt per
sibling, in order. -/
theorem cancelFold_events (broker : Broker) (l : List OrderRec) (acc : DB × List Event) :
    (l.foldl (cancelStep broker) acc).2 =
      acc.2 ++ l.map (fun o => Event.cancelOrder o.alpaca_order_id) := by
  induction l generalizing acc with
  | nil => simp
  | cons o l ih =>
    rw [List.foldl_cons, ih]
    simp [cancelStep]

/-- A row already marked cancelled stays cancelled across one
cancellation step. -/
theorem cancelStep_keeps_cancelled (broker : Broker) (acc : DB × List Event)
    (o : OrderRec) (aid : String)
    (h : ∀ r ∈ acc.1.orders, r.alpaca_order_id = aid → r.order_status = "cancelled") :
    ∀ r ∈ (cancelStep broker acc o).1.orders,
      r.alpaca_order_id = aid → r.order_status = "cancelled" := by
  intro r hr hra
  unfold cancelStep at hr
  split at hr
  · simp only [markCancelledByAlpacaId, List.mem_map] at hr
    obtain ⟨r0, hr0, heq⟩ := hr
    by_cases hm : r0.alpaca_order_id = o.alpaca_order_id
    · rw [if_pos hm] at heq
      subst heq
      rfl
    · rw [if_neg hm] at heq
      subst heq
      exact h r0 hr0 hra
  · exact h r hr hra

/-- A row already marked cancelled stays cancelled across the whole
cancellation loop. -/
theorem cancelFold_keeps_cancelled (broker : Broker) (l : List OrderRec) (aid : String) :
    ∀ acc : DB × List Event,
      (∀ r ∈ acc.1.orders, r.alpaca_order_id = aid → r.order_status = "cancelled") →
      ∀ r ∈ (l.foldl (cancelStep broker) acc).1.orders,
        r.alpaca_order_id = aid → r.order_status = "cancelled" := by
  induction l with
  | nil => exact fun acc h => h
  | cons o l ih =>
    intro acc h
    rw [List.foldl_cons]
    exact ih _ (cancelStep_keeps_cancelled broker acc o aid h)

/-- Processing a sibling whose broker cancel succeeds marks every row
with its broker order id cancelled. -/
theorem cancelStep_marks (broker : Broker) (acc : DB × List Event) (s : OrderRec)
    (hok : broker.cancelOk s.alpaca_order_id = true) :
    ∀ r ∈ (cancelStep broker acc s).1.orders,
      r.alpaca_order_id = s.alpaca_order_id → r.order_status = "cancelled" := by
  intro r hr hra
  unfold cancelStep at hr
  rw [if_pos hok] at hr
  simp only [markCancelledByAlpacaId, List.mem_map] at hr
  obtain ⟨r0, hr0, heq⟩ := hr
  by_cases hm : r0.alpaca_order_id = s.alpaca_order_id
  · rw [if_pos hm] at heq
    subst heq
    rfl
  · rw [if_neg hm] at heq
    subst heq
    exact absurd hra hm

/-- Any sibling in the loop work list whose broker cancel succeeds ends
the loop with all its rows cancelled, whatever happens to the others. -/
theorem cancelFold_cancels (broker : Broker) (l : List OrderRec) (s : OrderRec)
    (hok : broker.cancelOk s.alpaca_order_id = true) :
    ∀ acc : DB × List Event, s ∈ l →
      ∀ r ∈ (l.foldl (cancelStep broker) acc).1.orders,
        r.alpaca_order_id = s.alpaca_order_id → r.order_status = "cancelled" := by
  induction l with
  | nil =>
    intro acc hs
    cases hs
  | cons o l ih =>
    intro acc hs
    rw [List.foldl_cons]
    rcases List.mem_cons.mp hs with heq | hs2
    · subst heq
      exact cancelFold_keeps_cancelled broker l _ _ (cancelStep_marks broker acc s hok)
    · exact ih _ hs2

/-- C5: when a protective-order fill closes a trade, the handler
attempts a broker cancel for every other still-open (pending / new /
accepted) protective order of the same trade, marks each
successfully-cancelled sibling cancelled locally, and a failure on one
sibling neither aborts the trade closure (the trade row is already
CLOSED) nor the handling of the remaining siblings. -/
theorem sibling_orders_cancelled (broker : Broker) (db : DB) (order : OrderRec)
    (ao : AlpacaOrder) (trade : Trade) (exitPrice entryPrice fillQty : Rat)
    (ht : findTrade db order.trade_journal_id = some trade)
    (hp : ao.filled_avg_price = some exitPrice)
    (he : trade.actual_entry = some entryPrice)
    (hq : ao.filled_qty = some fillQty) :
    (handle_exit_filled broker db order ao).ok = true ∧
    (handle_exit_filled broker db order ao).events =
      (openSiblingOrders db order.trade_journal_id ao.id).map
        (fun o => Event.cancelOrder o.alpaca_order_id) ∧
    (∀ s ∈ openSiblingOrders db order.trade_journal_id ao.id,
       broker.cancelOk s.alpaca_order_id = true →
       ∀ r ∈ (handle_exit_filled broker db order ao).db.orders,
         r.alpaca_order_id = s.alpaca_order_id → r.order_status = "cancelled") ∧
    (∀ t ∈ (handle_exit_filled broker db order ao).db.trades,
       t.id = order.trade_journal_id → t.status = "CLOSED") := by
  rw [handle_exit_filled_eq broker db order ao trade exitPrice entryPrice fillQty ht hp he hq]
  refine ⟨rfl, ?_, ?_, ?_⟩
  · show (cancel_remaining_orders broker _ order.trade_journal_id ao.id).2 = _
    unfold cancel_remaining_orders
    rw [cancelFold_events]
    rfl
  · intro s hs hok r hr hra
    revert hr
    show r ∈ (cancel_remaining_orders broker _ order.trade_journal_id ao.id).1.orders → _
    unfold cancel_remaining_orders
    intro hr
    exact cancelFold_cancels broker _ s hok _ hs r hr hra
  · intro t htmem htid
    rw [(cancel_remaining_preserves broker _ _ _).1] at htmem
    simp only [exitFillClosedDB, List.mem_map] at htmem
    obtain ⟨t0, _, hteq⟩ := htmem
    by_cases h0 : t0.id = order.trade_journal_id
    · rw [if_pos h0] at hteq
      subst hteq
      rfl
    · rw [if_neg h0] at hteq
      subst hteq
      exact absurd htid h0

/-- C5 witness: the concrete stop-loss fill cancels the open take-profit
sibling and leaves the trade CLOSED. -/
theorem sibling_orders_cancelled_witness :
    (handle_exit_filled (testBroker none) dbExit0 slOpen0 aoSLfill0).ok = true ∧
    (handle_exit_filled (testBroker none) dbExit0 slOpen0 aoSLfill0).events =
      (openSiblingOrders dbExit0 slOpen0.trade_journal_id aoSLfill0.id).map
        (fun o => Event.cancelOrder o.alpaca_order_id) ∧
    (∀ s ∈ openSiblingOrders dbExit0 slOpen0.trade_journal_id aoSLfill0.id,
       (testBroker none).cancelOk s.alpaca_order_id = true →
       ∀ r ∈ (handle_exit_filled (testBroker none) dbExit0 slOpen0 aoSLfill0).db.orders,
         r.alpaca_order_id = s.alpaca_order_id → r.order_status = "cancelled") ∧
    (∀ t ∈ (handle_exit_filled (testBroker none) dbExit0 slOpen0 aoSLfill0).db.trades,
       t.id = slOpen0.trade_journal_id → t.status = "CLOSED") :=
  sibling_orders_cancelled (testBroker none) dbExit0 slOpen0 aoSLfill0 tradePos0
    9 10 5 (by decide) rfl rfl rfl

/-- C6 counterexample: reconciliation computes realized P&L from the
Position row quantity (1) and average entry, not from the filled order
fill quantity (2): it stores (12 − 10) × 1 = 2 where the claimed formula
over the order fill quantity gives (12 − 10) × 2 = 4. -/
theorem reconcile_fill_qty_cex :
    ((reconcile_closed_position dbRecon0 posRec0).1.trades.map Trade.actual_pnl = [some 2]) ∧
    slFilledFrac0.filled_qty = some 2 ∧
    slFilledFrac0.filled_avg_price = some 12 ∧
    (12 - 10 : Rat) * 2 = 4 ∧ (2 : Rat) ≠ 4 := by
  refine ⟨?_, by decide, by decide, by norm_num, by norm_num⟩
  norm_num [reconcile_closed_position, filledExitOrders, pickLatestFilledExit, fillLater,
    reconcileClose, updateTradeRow, dbRecon0, posRec0, slFilledFrac0, tradePos0, trade0]

/-- C6 amended: reconciling a position absent at the broker uses the
most-recently-filled protective order when one exists — exit price is
that order fill price, realized P&L is (fill price − the Position
average entry) × the Position quantity (not the order fill quantity),
and the exit reason is STOPPED_OUT / TARGET_HIT per the order type,
never MANUAL_EXIT; only with no filled protective order does it fall
back to the Position last mark price and unrealized P&L with reason
MANUAL_EXIT. Either way the trade is CLOSED and the position row
deleted. -/
theorem reconcile_closed_position_spec (db : DB) (position : Position) :
    (∀ order exitPrice,
       pickLatestFilledExit (filledExitOrders db position.trade_journal_id) = some order →
       order.filled_avg_price = some exitPrice →
       (∀ t ∈ (reconcile_closed_position db position).1.trades,
          t.id = position.trade_journal_id →
          t.status = "CLOSED" ∧ t.exit_price = some exitPrice ∧
          t.actual_pnl = some ((exitPrice - position.avg_entry_price) * position.qty) ∧
          (order.order_type = "STOP_LOSS" → t.exit_reason = some "STOPPED_OUT") ∧
          (order.order_type ≠ "STOP_LOSS" → t.exit_reason = some "TARGET_HIT") ∧
          t.exit_reason ≠ some "MANUAL_EXIT") ∧
       (∀ p ∈ (reconcile_closed_position db position).1.positions, p.id ≠ position.id)) ∧
    (pickLatestFilledExit (filledExitOrders db position.trade_journal_id) = none →
       (∀ t ∈ (reconcile_closed_position db position).1.trades,
          t.id = position.trade_journal_id →
          t.status = "CLOSED" ∧ t.exit_price = some position.current_price ∧
          t.actual_pnl = some position.unrealized_pnl ∧
          t.exit_reason = some "MANUAL_EXIT") ∧
       (∀ p ∈ (reconcile_closed_position db position).1.positions, p.id ≠ position.id)) := by
  constructor
  · intro order exitPrice hpick hp
    unfold reconcile_closed_position
    rw [hpick]
    dsimp only
    rw [hp]
    dsimp only
    unfold reconcileClose
    dsimp only
    constructor
    · intro t htmem htid
      simp only [updateTradeRow, List.mem_map] at htmem
      obtain ⟨t0, _, hteq⟩ := htmem
      by_cases h0 : t0.id = position.trade_journal_id
      · rw [if_pos h0] at hteq
        subst hteq
        refine ⟨rfl, rfl, rfl, fun hsl => ?_, fun hsl => ?_, ?_⟩
        · simp [hsl]
        · simp [hsl]
        · by_cases hsl : order.order_type = "STOP_LOSS"
          · simp [hsl]
          · simp [hsl]
      · rw [if_neg h0] at hteq
        subst hteq
        exact absurd htid h0
    · intro p hpmem
      simp only [updateTradeRow, List.mem_filter, decide_eq_true_iff] at hpmem
      exact hpmem.2
  · intro hpick
    unfold reconcile_closed_position
    rw [hpick]
    dsimp only
    unfold reconcileClose
    dsimp only
    constructor
    · intro t htmem htid
      simp only [updateTradeRow, List.mem_map] at htmem
      obtain ⟨t0, _, hteq⟩ := htmem
      by_cases h0 : t0.id = position.trade_journal_id
      · rw [if_pos h0] at hteq
        subst hteq
        exact ⟨rfl, rfl, rfl, rfl⟩
      · rw [if_neg h0] at hteq
        subst hteq
        exact absurd htid h0
    · intro p hpmem
      simp only [updateTradeRow, List.mem_filter, decide_eq_true_iff] at hpmem
      exact hpmem.2

/-- C6 amended witness: the concrete reconciliation classifies the exit
STOPPED_OUT off the filled stop-loss at price 12 with the position
quantity. -/
theorem reconcile_closed_position_spec_witness :
    (∀ t ∈ (reconcile_closed_position dbRecon0 posRec0).1.trades,
       t.id = posRec0.trade_journal_id →
       t.status = "CLOSED" ∧ t.exit_price = some 12 ∧
       t.actual_pnl = some ((12 - posRec0.avg_entry_price) * posRec0.qty) ∧
       (slFilledFrac0.order_type = "STOP_LOSS" → t.exit_reason = some "STOPPED_OUT") ∧
       (slFilledFrac0.order_type ≠ "STOP_LOSS" → t.exit_reason = some "TARGET_HIT") ∧
       t.exit_reason ≠ some "MANUAL_EXIT") ∧
    (∀ p ∈ (reconcile_closed_position dbRecon0 posRec0).1.positions, p.id ≠ posRec0.id) :=
  (reconcile_closed_position_spec dbRecon0 posRec0).1 slFilledFrac0 12 (by decide) rfl
